import Mathlib

/-!
Verification of the `de-components` data-access layer against its specification.

The development shallowly embeds the Python source files:

* `src/core/database.py` — templated SQL execution (`execute_sql_query`),
  CSV bulk loading (`copy_csv_to_postgres`), schema inspection
  (`table_exists`), and tabular transfer (`fetch_table`,
  `bulk_insert_dataframe`);
* `src/visualization/line_plot.py`, `rolling_sum.py`, `waterfall.py` —
  the plotting collaborators' input validation.

Python strings are modelled as `List Char`.  Recursions that consume a
variable number of characters per step (the textual replacement loop)
are written with an explicit fuel argument set to the input length;
since every step consumes at least one character, the fuel never runs
out, and the structural recursion lets the kernel evaluate the
definitions on concrete inputs.

The behaviour of the external libraries (SQLAlchemy's
`Engine.begin` context manager, psycopg2 connections, pandas
`DataFrame.to_sql` / `read_sql`) is embedded from their documented
semantics; the repository's own code is translated line by line on top
of those models, with session/connection lifecycle recorded as explicit
event traces so that commit/rollback/release ordering can be stated.
-/

/-- Boolean prefix test on character lists (Python `str.startswith`,
used here to model the scanning behaviour of `str.replace`). -/
def isPrefixL : List Char → List Char → Bool
  | [], _ => true
  | _ :: _, [] => false
  | a :: as, b :: bs => a == b && isPrefixL as bs

/-- Placeholder text for a key: the exact pattern built by
`f"\x7b\x7b\x7b\x7b {key} \x7d\x7d\x7d\x7d"` in `execute_sql_query`
(`src/core/database.py:50`), i.e. two opening braces, one space, the key,
one space, two closing braces. -/
def placeholderL (key : List Char) : List Char :=
  '\x7b' :: '\x7b' :: ' ' :: (key ++ [' ', '\x7d', '\x7d'])

/-- Does `pat` occur as a contiguous substring of the text (Python `in`)? -/
def occursIn (pat : List Char) : List Char → Bool
  | [] => isPrefixL pat []
  | c :: rest => isPrefixL pat (c :: rest) || occursIn pat rest

/-- Fuel-indexed model of Python `str.replace(pat, rep)`: scan left to
right; at each position, if (non-empty) `pat` starts here, emit `rep` and
skip past the matched occurrence — the emitted `rep` is not rescanned in
this pass — otherwise keep the character and move on.  Each step consumes
at least one input character, so fuel equal to the input length (see
`replaceList`) is always sufficient. -/
def replaceFuel (pat rep : List Char) : Nat → List Char → List Char
  | _, [] => []
  | 0, s => s
  | n + 1, c :: rest =>
    if !pat.isEmpty && isPrefixL pat (c :: rest) then
      rep ++ replaceFuel pat rep n ((c :: rest).drop pat.length)
    else
      c :: replaceFuel pat rep n rest

/-- Python `s.replace(pat, rep)` for a non-empty pattern. -/
def replaceList (pat rep s : List Char) : List Char :=
  replaceFuel pat rep s.length s

/-- The identifier-substitution step of `execute_sql_query`
(`src/core/database.py:48-50`):

    if identifiers:
        for key, value in identifiers.items():
            sql_text = sql_text.replace(f"\x7b\x7b\x7b\x7b {key} \x7d\x7d\x7d\x7d", str(value))

The Identifier Map is modelled as an association list in the dict's
insertion (= iteration) order; an absent (`None`) map is the empty list,
for which the loop body never runs, exactly like the falsy test. -/
def resolveTemplate (identifiers : List (List Char × List Char)) (sqlText : List Char) :
    List Char :=
  identifiers.foldl (fun acc kv => replaceList (placeholderL kv.1) kv.2 acc) sqlText

/-- Fuel-indexed simultaneous replacement, written from the spec's words
(section 4.1): scan the text once; wherever some key's placeholder
`\x7b\x7b key \x7d\x7d` starts, emit that key's literal value and skip the
placeholder (values are never rescanned); all other text — including
placeholders of keys absent from the map — is kept verbatim. -/
def specResolveFuel (identifiers : List (List Char × List Char)) :
    Nat → List Char → List Char
  | 0, s => s
  | _ + 1, [] => []
  | n + 1, c :: rest =>
    match identifiers.find? (fun kv => isPrefixL (placeholderL kv.1) (c :: rest)) with
    | some kv => kv.2 ++ specResolveFuel identifiers n ((c :: rest).drop (placeholderL kv.1).length)
    | none => c :: specResolveFuel identifiers n rest

/-- Modelled from the spec: the Template Resolver as the specification
describes it — a single simultaneous pass replacing every placeholder
occurrence by its mapped literal value. Compared against
`resolveTemplate`, the function the code actually computes. -/
def specResolve (identifiers : List (List Char × List Char)) (sqlText : List Char) :
    List Char :=
  specResolveFuel identifiers sqlText.length sqlText

example : resolveTemplate [("a".toList, "T".toList)] "\x7b\x7b a \x7d\x7d x".toList
    = "T x".toList := by decide

example : resolveTemplate
      [("a".toList, "\x7b\x7b b \x7d\x7d".toList), ("b".toList, "X".toList)]
      "\x7b\x7b a \x7d\x7d".toList = "X".toList := by decide

example : specResolve
      [("a".toList, "\x7b\x7b b \x7d\x7d".toList), ("b".toList, "X".toList)]
      "\x7b\x7b a \x7d\x7d".toList = "\x7b\x7b b \x7d\x7d".toList := by decide

/-- A result Row: an ordered mapping column name → value, as produced by
`result.mappings()` (values abstracted to strings). -/
abbrev Row := List (String × String)

/-- Opaque database error surfaced by the driver during execution. -/
structure DbError where
  msg : String
  deriving Repr, DecidableEq

/-- Session lifecycle events of a SQLAlchemy `Engine.begin` block. -/
inductive DbEvent
  | sessionBegin
  | txnCommit
  | txnRollback
  | sessionRelease
  deriving Repr, DecidableEq

/-- What `execute_sql_query` hands back, per fetch mode:
`noResult` is Python `None`, `oneRow` is `result.mappings().first()`
(`none` when the result set is empty), `allRows` is
`result.mappings().all()`. -/
inductive QueryResult
  | noResult
  | oneRow (r : Option Row)
  | allRows (rs : List Row)
  deriving Repr, DecidableEq

/-- Outcome of one `execute_sql_query` call over an abstract database
state `σ`: the database state visible after the call, the returned value
or propagated exception, and the session's lifecycle trace. -/
structure ExecOutcome (σ : Type) where
  finalState : σ
  result : Except DbError QueryResult
  events : List DbEvent
  deriving Repr

/-- Model of SQLAlchemy's `with engine.begin() as conn:` context manager
(its documented semantics): a session is begun; the body runs against the
current state; if the body returns normally the transaction is committed
(the body's new state becomes visible) and the session released; if the
body raises, the transaction is rolled back (the original state stays
visible), the session is released, and the exception propagates. -/
def engine_begin {σ α : Type} (st : σ) (body : σ → Except DbError (σ × α)) :
    σ × Except DbError α × List DbEvent :=
  match body st with
  | .ok (st2, a) =>
      (st2, .ok a, [DbEvent.sessionBegin, DbEvent.txnCommit, DbEvent.sessionRelease])
  | .error e =>
      (st, .error e, [DbEvent.sessionBegin, DbEvent.txnRollback, DbEvent.sessionRelease])

/-- The fetch dispatch of `execute_sql_query` (`src/core/database.py:55-60`):

    if fetch == "one":
        return result.mappings().first()
    elif fetch == "all":
        return result.mappings().all()
    ...
    return None

Any other value of `fetch` (including `None` and the string "none")
falls through to `return None`. -/
def pickFetch (fetch : Option String) (rows : List Row) : QueryResult :=
  if fetch == some "one" then QueryResult.oneRow rows.head?
  else if fetch == some "all" then QueryResult.allRows rows
  else QueryResult.noResult

/-- `execute_sql_query` (`src/core/database.py:9-60`), over an abstract
database-state type `σ` and an execution oracle `run` standing for
`conn.execute(text(sql_text), params or \x7b\x7d)` — `run` receives the
current state, the resolved SQL text and the bound parameters, and
either returns the post-statement (not yet committed) state with the
statement's result rows, or raises.  The SQL text is the content read
from the file by `Path(sql_file_path).read_text()`; identifiers are
substituted by `resolveTemplate`, then the statement runs inside a
`with engine.begin()` block (`engine_begin`), with the fetch-mode
dispatch of `pickFetch` inside that block.  Defaults mirror the Python
signature: no identifiers, no params, `fetch=None`. -/
def execute_sql_query {σ : Type}
    (run : σ → List Char → List (String × String) → Except DbError (σ × List Row))
    (st : σ) (sqlText : List Char)
    (identifiers : List (List Char × List Char) := [])
    (params : List (String × String) := [])
    (fetch : Option String := Option.none) : ExecOutcome σ :=
  let resolved := resolveTemplate identifiers sqlText
  let p := engine_begin st (fun s0 =>
    match run s0 resolved params with
    | .error e => .error e
    | .ok (s1, rows) => .ok (s1, pickFetch fetch rows))
  ⟨p.1, p.2.1, p.2.2⟩

/-- Connection/cursor/file lifecycle events of `copy_csv_to_postgres`. -/
inductive CopyEvent
  | connectOpen
  | cursorOpen
  | fileOpen
  | copyRun
  | fileClose
  | connCommit
  | cursorClose
  | connClose
  deriving Repr, DecidableEq

/-- Errors a `copy_csv_to_postgres` call can raise. -/
inductive CopyError
  | fileNotFound
  | databaseError (e : DbError)
  deriving Repr, DecidableEq

/-- Outcome of one `copy_csv_to_postgres` call: the database state
visible to other sessions after the call, the normal/exceptional result,
and the ordered trace of lifecycle events that actually executed. -/
structure CopyOutcome (σ : Type) where
  visible : σ
  result : Except CopyError Unit
  events : List CopyEvent
  deriving Repr

/-- `copy_csv_to_postgres` (`src/core/database.py:63-107`), translated
statement by statement over an abstract database-state type `σ`.
`copyExec st path schema table` models `cursor.copy_expert(COPY
schema.table FROM STDIN ...)` streaming the file: it returns the staged
(uncommitted) state or raises; `fileExists` models whether
`open(csv_file_path)` succeeds.  The source has no `try`/`finally` and no
context manager around the connection:

    conn = psycopg2.connect(**connection_params)
    cursor = conn.cursor()
    with open(csv_file_path, ...) as f:
        cursor.copy_expert(..., f)
    conn.commit()
    cursor.close()
    conn.close()

so when `open` raises, only connect/cursor have run; when `copy_expert`
raises, the `with` block closes the file but `conn.commit()`,
`cursor.close()` and `conn.close()` are all skipped — staged rows are
never committed (hence not visible: `visible` stays `st`, the
uncommitted work being discarded when the connection is eventually
reclaimed outside the call), and no close event occurs inside the call. -/
def copy_csv_to_postgres {σ : Type}
    (copyExec : σ → String → String → String → Except DbError σ)
    (fileExists : Bool) (st : σ)
    (csv_file_path : String) (table_name : String)
    (connection_params : List (String × String))
    (schema : String := "public") : CopyOutcome σ :=
  if fileExists = false then
    ⟨st, .error CopyError.fileNotFound, [CopyEvent.connectOpen, CopyEvent.cursorOpen]⟩
  else
    match copyExec st csv_file_path schema table_name with
    | .error e =>
        ⟨st, .error (CopyError.databaseError e),
          [CopyEvent.connectOpen, CopyEvent.cursorOpen, CopyEvent.fileOpen,
           CopyEvent.copyRun, CopyEvent.fileClose]⟩
    | .ok staged =>
        ⟨staged, .ok (),
          [CopyEvent.connectOpen, CopyEvent.cursorOpen, CopyEvent.fileOpen,
           CopyEvent.copyRun, CopyEvent.fileClose, CopyEvent.connCommit,
           CopyEvent.cursorClose, CopyEvent.connClose]⟩

/-- A database table: named columns and rows of values. -/
structure Table where
  cols : List String
  rows : List (List String)
  deriving Repr, DecidableEq

/-- The database catalog seen through a SQLAlchemy engine: an association
list from (schema, table name) to the table's contents. -/
abbrev Catalog := List ((String × String) × Table)

/-- Catalog lookup for a (schema, table) pair. -/
def findTable (catalog : Catalog) (schema tableName : String) : Option Table :=
  (catalog.find? (fun e => e.1.1 == schema && e.1.2 == tableName)).map Prod.snd

/-- `table_exists` (`src/core/database.py:113-132`): the SQLAlchemy
inspector's `has_table(table_name, schema=schema)` catalog lookup,
modelled as a lookup in the `Catalog`.  The schema defaults to
"public" as in the source signature. -/
def table_exists (catalog : Catalog) (tableName : String)
    (schema : String := "public") : Bool :=
  (findTable catalog schema tableName).isSome

/-- Update or create a (schema, table) entry in the catalog: the new
binding shadows (and drops) any previous binding of the same key; all
other entries are untouched. -/
def setTable (catalog : Catalog) (schema tableName : String) (t : Table) : Catalog :=
  ((schema, tableName), t) ::
    catalog.filter (fun e => !(e.1.1 == schema && e.1.2 == tableName))

/-- `pd.read_sql(query, engine)` for the unfiltered projection
`SELECT * FROM "schema"."table_name"` issued by `fetch_table`: returns
the table's full contents as a DataFrame (modelled by `Table`). -/
def read_sql_all (catalog : Catalog) (schema tableName : String) : Table :=
  (findTable catalog schema tableName).getD ⟨[], []⟩

/-- `fetch_table` (`src/core/database.py:135-162`): first the Schema
Inspector precondition gate, then the projection query.

    if not table_exists(engine, table_name, schema):
        raise ValueError(f"Table '\x7bschema\x7d.\x7btable_name\x7d' does not exist.")
    query = f'SELECT * FROM "\x7bschema\x7d"."\x7btable_name\x7d"'
    return pd.read_sql(query, engine)

The second component of the result records, in order, every scan query
the call sent to the database (empty when the call raised before
querying).  The schema defaults to "public" as in the source. -/
def fetch_table (catalog : Catalog) (tableName : String)
    (schema : String := "public") : Except String Table × List String :=
  if table_exists catalog tableName schema = false then
    (.error ("Table '" ++ schema ++ "." ++ tableName ++ "' does not exist."), [])
  else
    (.ok (read_sql_all catalog schema tableName),
      ["SELECT * FROM \"" ++ schema ++ "\".\"" ++ tableName ++ "\""])

/-- An in-memory pandas DataFrame: named data columns, rows of data
values, plus the index (row labels) that pandas keeps alongside. -/
structure DataFrame where
  cols : List String
  indexCol : String
  index : List String
  rows : List (List String)
  deriving Repr, DecidableEq

/-- Errors raised by `DataFrame.to_sql`. -/
inductive ToSqlErr
  | invalidIfExists
  | tableAlreadyExists
  deriving Repr, DecidableEq

/-- Model of pandas `DataFrame.to_sql(name, con, schema, if_exists,
index, ...)` (its documented semantics): `if_exists` must be one of
"fail" / "replace" / "append"; with an existing target, "fail" raises,
"replace" drops and recreates the table from the written frame,
"append" adds the written rows after the existing ones; with no
existing target the table is created.  When `index` is true the row
labels are written as a leading extra column; when false only the data
columns are written.  (`method="multi"` only batches the INSERTs and
does not change the resulting contents.) -/
def to_sql (df : DataFrame) (catalog : Catalog) (name schema if_exists : String)
    (index : Bool) : Except ToSqlErr Catalog :=
  if (if_exists == "fail" || if_exists == "replace" || if_exists == "append") = false then
    .error ToSqlErr.invalidIfExists
  else
    let wcols := if index then df.indexCol :: df.cols else df.cols
    let wrows := if index then (df.index.zip df.rows).map (fun p => p.1 :: p.2) else df.rows
    match findTable catalog schema name with
    | some t =>
        if if_exists == "fail" then .error ToSqlErr.tableAlreadyExists
        else if if_exists == "replace" then .ok (setTable catalog schema name ⟨wcols, wrows⟩)
        else .ok (setTable catalog schema name ⟨t.cols, t.rows ++ wrows⟩)
    | none => .ok (setTable catalog schema name ⟨wcols, wrows⟩)

/-- `bulk_insert_dataframe` (`src/core/database.py:165-199`):

    df.to_sql(name=table_name, con=engine, schema=schema,
              if_exists=if_exists, index=False, method="multi")

`index=False` is hard-coded, so the DataFrame's index/row-label column
is never written; schema defaults to "public" and `if_exists` to
"append" as in the source signature. -/
def bulk_insert_dataframe (df : DataFrame) (catalog : Catalog) (tableName : String)
    (schema : String := "public") (if_exists : String := "append") :
    Except ToSqlErr Catalog :=
  to_sql df catalog tableName schema if_exists false

/-- `create_line_plot` (`src/visualization/line_plot.py:5-49`),
restricted to what the claims observe: its column validation and
whether any matplotlib side effect runs.  The plotting body
(`dropna`, sort, `plt.plot`, ...) is abstracted to the single action
"plot" in the returned action trace; the trace is empty when the call
raises before plotting.

    if x_col not in df.columns or y_col not in df.columns:
        raise ValueError("Specified columns not found in DataFrame") -/
def create_line_plot (dfCols : List String) (x_col y_col : String) :
    Except String Unit × List String :=
  if (!dfCols.contains x_col || !dfCols.contains y_col) then
    (.error "Specified columns not found in DataFrame", [])
  else
    (.ok (), ["plot"])

/-- `rolling_sum_plot` (`src/visualization/rolling_sum.py:9-112`),
restricted to its column validation and whether any side effect runs
(the rolling computation, plotting and file saving are abstracted to
the single action "plot").

    if date_col not in df.columns:
        raise ValueError(f"\x7bdate_col\x7d not found in DataFrame")
    missing_cols = [col for col in value_cols if col not in df.columns]
    if missing_cols:
        raise ValueError(f"Columns not found: \x7bmissing_cols\x7d") -/
def rolling_sum_plot (dfCols : List String) (date_col : String)
    (value_cols : List String) : Except String Unit × List String :=
  if !dfCols.contains date_col then
    (.error (date_col ++ " not found in DataFrame"), [])
  else
    let missing_cols := value_cols.filter (fun col => !dfCols.contains col)
    if missing_cols ≠ [] then
      (.error "Columns not found", [])
    else
      (.ok (), ["plot"])

/-- `plot_waterfall` (`src/visualization/waterfall.py:4-101`),
restricted to its validation and whether any side effect runs.  The two
length checks are the first two statements of the function body, before
any figure/axis is created; the bar drawing is abstracted to the single
action "bar".  Step values are abstracted from float to Int (only the
lengths matter to the validation).

    if len(step_labels) != len(step_values):
        raise ValueError("step_labels and step_values must have same length")
    if step_colors and len(step_colors) != len(step_values):
        raise ValueError("step_colors must match number of steps") -/
def plot_waterfall (start_value : Int) (step_labels : List String)
    (step_values : List Int) (step_colors : List String := []) :
    Except String Unit × List String :=
  if step_labels.length ≠ step_values.length then
    (.error "step_labels and step_values must have same length", [])
  else if step_colors ≠ [] ∧ step_colors.length ≠ step_values.length then
    (.error "step_colors must match number of steps", [])
  else
    (.ok (), ["bar"])

theorem isPrefixL_refl : ∀ l : List Char, isPrefixL l l = true
  | [] => rfl
  | a :: as => by simp [isPrefixL, isPrefixL_refl as]

theorem placeholderL_isEmpty (k : List Char) : (placeholderL k).isEmpty = false := rfl

theorem placeholderL_ne_nil (k : List Char) : placeholderL k ≠ [] := by
  simp [placeholderL]

theorem replaceFuel_nil (pat rep : List Char) (n : Nat) :
    replaceFuel pat rep n [] = [] := by
  cases n <;> rfl

/-- With a single-entry map, one Python `str.replace` pass computes
exactly the spec's simultaneous replacement (at every fuel level). -/
theorem replaceFuel_eq_specResolveFuel (k v : List Char) :
    ∀ (n : Nat) (s : List Char),
      replaceFuel (placeholderL k) v n s = specResolveFuel [(k, v)] n s := by
  intro n
  induction n with
  | zero => intro s; cases s <;> rfl
  | succ n ih =>
    intro s
    cases s with
    | nil => rfl
    | cons c rest =>
      cases h : isPrefixL (placeholderL k) (c :: rest) with
      | true => simp [replaceFuel, specResolveFuel, List.find?, h, ih, placeholderL_ne_nil]
      | false => simp [replaceFuel, specResolveFuel, List.find?, h, ih, placeholderL_ne_nil]

/-- Single-entry maps: the code's resolver equals the spec's
simultaneous replacement. -/
theorem resolveTemplate_single (k v s : List Char) :
    resolveTemplate [(k, v)] s = specResolve [(k, v)] s := by
  simpa [resolveTemplate, replaceList, specResolve] using
    replaceFuel_eq_specResolveFuel k v s.length s

theorem replaceFuel_id_of_not_occurs (pat rep : List Char) :
    ∀ (n : Nat) (s : List Char), occursIn pat s = false → replaceFuel pat rep n s = s := by
  intro n
  induction n with
  | zero => intro s _; cases s <;> rfl
  | succ n ih =>
    intro s h
    cases s with
    | nil => rfl
    | cons c rest =>
      simp only [occursIn, Bool.or_eq_false_iff] at h
      simp [replaceFuel, h.1, ih rest h.2]

theorem replaceList_id_of_not_occurs (pat rep s : List Char)
    (h : occursIn pat s = false) : replaceList pat rep s = s :=
  replaceFuel_id_of_not_occurs pat rep s.length s h

/-- If no map key's placeholder occurs in the text, resolution is the
identity. -/
theorem resolveTemplate_id_of_not_occurs :
    ∀ (ids : List (List Char × List Char)) (s : List Char),
      (∀ kv ∈ ids, occursIn (placeholderL kv.1) s = false) →
      resolveTemplate ids s = s := by
  intro ids
  induction ids with
  | nil => intro s _; rfl
  | cons kv rest ih =>
    intro s h
    have h1 : replaceList (placeholderL kv.1) kv.2 s = s :=
      replaceList_id_of_not_occurs _ _ _ (h kv (List.mem_cons_self _ _))
    calc resolveTemplate (kv :: rest) s
        = resolveTemplate rest (replaceList (placeholderL kv.1) kv.2 s) := rfl
      _ = resolveTemplate rest s := by rw [h1]
      _ = s := ih s (fun kv' hkv' => h kv' (List.mem_cons_of_mem _ hkv'))

/-- Replacing a non-empty pattern inside exactly that pattern yields the
replacement verbatim: the substituted value is not rescanned within its
own pass. -/
theorem replaceList_pat_self (c : Char) (cs rep : List Char) :
    replaceList (c :: cs) rep (c :: cs) = rep := by
  show replaceFuel (c :: cs) rep (c :: cs).length (c :: cs) = rep
  rw [List.length_cons, replaceFuel]
  simp [isPrefixL_refl, List.drop_length, replaceFuel_nil]

/-- Claim C1, counterexample: the resolver does not replace every
placeholder occurrence by the literal mapped value.  With the map
\x7ba ↦ "\x7b\x7b b \x7d\x7d", b ↦ "X"\x7d and the text "\x7b\x7b a \x7d\x7d",
the claim requires the output "\x7b\x7b b \x7d\x7d" (the literal value
for `a`), but the sequential replacement loop then also replaces the
`b` placeholder inside that substituted value, producing "X". -/
theorem resolver_not_simultaneous_cex :
    resolveTemplate
        [("a".toList, "\x7b\x7b b \x7d\x7d".toList), ("b".toList, "X".toList)]
        "\x7b\x7b a \x7d\x7d".toList
      = "X".toList
    ∧ specResolve
        [("a".toList, "\x7b\x7b b \x7d\x7d".toList), ("b".toList, "X".toList)]
        "\x7b\x7b a \x7d\x7d".toList
      = "\x7b\x7b b \x7d\x7d".toList
    ∧ resolveTemplate
        [("a".toList, "\x7b\x7b b \x7d\x7d".toList), ("b".toList, "X".toList)]
        "\x7b\x7b a \x7d\x7d".toList
      ≠ specResolve
        [("a".toList, "\x7b\x7b b \x7d\x7d".toList), ("b".toList, "X".toList)]
        "\x7b\x7b a \x7d\x7d".toList := by
  refine ⟨by decide, by decide, by decide⟩

/-- Claim C1 (amended): the Template Resolver applies the Identifier Map
sequentially, one entry at a time in iteration order (first conjunct 2);
the empty or absent map returns the input unchanged (conjunct 1); a
single-entry map computes exactly the simultaneous replacement of every
occurrence of `\x7b\x7b key \x7d\x7d` — exact single interior space on
each side — by the literal mapped value, with all other text, including
placeholders of absent keys, left verbatim and no error (conjunct 3);
and whenever no map key's placeholder occurs in the text the output
equals the input (conjunct 4). -/
theorem resolver_sequential_correctness :
    (∀ s : List Char, resolveTemplate [] s = s)
    ∧ (∀ (kv : List Char × List Char) (ids : List (List Char × List Char)) (s : List Char),
        resolveTemplate (kv :: ids) s = resolveTemplate ids (resolveTemplate [kv] s))
    ∧ (∀ k v s : List Char, resolveTemplate [(k, v)] s = specResolve [(k, v)] s)
    ∧ (∀ (ids : List (List Char × List Char)) (s : List Char),
        (∀ kv ∈ ids, occursIn (placeholderL kv.1) s = false) →
        resolveTemplate ids s = s) :=
  ⟨fun _ => rfl, fun _ _ _ => rfl, resolveTemplate_single, resolveTemplate_id_of_not_occurs⟩

/-- Claim C1 (amended), witness: a concrete map and text with no
placeholder of a map key present, on which the fourth conjunct applies. -/
theorem resolver_sequential_correctness_witness :
    (∀ kv ∈ [("a".toList, "T".toList)],
        occursIn (placeholderL kv.1) "SELECT 1".toList = false)
    ∧ resolveTemplate [("a".toList, "T".toList)] "SELECT 1".toList = "SELECT 1".toList := by
  have h : ∀ kv ∈ [("a".toList, "T".toList)],
      occursIn (placeholderL kv.1) "SELECT 1".toList = false := by decide
  exact ⟨h, resolver_sequential_correctness.2.2.2 _ _ h⟩

/-- Claim C7, counterexample: a placeholder occurring inside a
substituted value is replaced after all.  The value substituted for `x`
is exactly the placeholder of the later key `y`; the claim requires it
to survive in the output, but the output is "7" and the `y` placeholder
does not occur in it. -/
theorem resolver_rescans_values_cex :
    resolveTemplate
        [("x".toList, "\x7b\x7b y \x7d\x7d".toList), ("y".toList, "7".toList)]
        "\x7b\x7b x \x7d\x7d".toList = "7".toList
    ∧ occursIn (placeholderL "y".toList)
        (resolveTemplate
          [("x".toList, "\x7b\x7b y \x7d\x7d".toList), ("y".toList, "7".toList)]
          "\x7b\x7b x \x7d\x7d".toList) = false := by
  refine ⟨by decide, by decide⟩

/-- Claim C7 (amended): resolution makes one replacement pass per map
entry, the passes applied sequentially in iteration order (first
conjunct), and within a single entry's pass the substituted value is not
itself rescanned for that entry's placeholder: replacing an occurrence
that is exactly the entry's placeholder yields the value verbatim, even
when the value again contains that placeholder (second conjunct).  A
placeholder of a key occurring later in the map inside a substituted
value is, however, replaced by that later entry's pass. -/
theorem resolver_one_pass_per_entry :
    (∀ (kv : List Char × List Char) (ids : List (List Char × List Char)) (s : List Char),
        resolveTemplate (kv :: ids) s = resolveTemplate ids (resolveTemplate [kv] s))
    ∧ (∀ k v : List Char, resolveTemplate [(k, v)] (placeholderL k) = v) := by
  constructor
  · intro kv ids s
    rfl
  · intro k v
    show replaceList (placeholderL k) v (placeholderL k) = v
    exact replaceList_pat_self _ _ _

theorem pickFetch_none (rows : List Row) :
    pickFetch Option.none rows = QueryResult.noResult := rfl

theorem pickFetch_one (rows : List Row) :
    pickFetch (some "one") rows = QueryResult.oneRow rows.head? := rfl

theorem pickFetch_all (rows : List Row) :
    pickFetch (some "all") rows = QueryResult.allRows rows := rfl

/-- Claim C2: the transactional session of `execute_sql_query` is scoped
to the call.  For every database behaviour `run` and every input: the
session lifecycle trace ends with the session being released (so it is
released on every exit path, including the exceptional one); when the
statement succeeds, its post-statement state is committed and becomes
the visible final state; when the statement raises, the visible state is
unchanged (rolled back), the rollback is recorded, and the failure
propagates to the caller. -/
theorem execute_sql_query_txn_scope {σ : Type}
    (run : σ → List Char → List (String × String) → Except DbError (σ × List Row))
    (st : σ) (sqlText : List Char) (identifiers : List (List Char × List Char))
    (params : List (String × String)) (fetch : Option String) :
    (execute_sql_query run st sqlText identifiers params fetch).events.getLast?
        = some DbEvent.sessionRelease
    ∧ (∀ (st1 : σ) (rows : List Row),
        run st (resolveTemplate identifiers sqlText) params = Except.ok (st1, rows) →
        (execute_sql_query run st sqlText identifiers params fetch).finalState = st1
        ∧ DbEvent.txnCommit ∈ (execute_sql_query run st sqlText identifiers params fetch).events)
    ∧ (∀ e : DbError,
        run st (resolveTemplate identifiers sqlText) params = Except.error e →
        (execute_sql_query run st sqlText identifiers params fetch).finalState = st
        ∧ DbEvent.txnRollback ∈ (execute_sql_query run st sqlText identifiers params fetch).events
        ∧ (execute_sql_query run st sqlText identifiers params fetch).result = Except.error e) := by
  refine ⟨?_, ?_, ?_⟩
  · cases hrun : run st (resolveTemplate identifiers sqlText) params with
    | ok p =>
      obtain ⟨st1, rows⟩ := p
      simp [execute_sql_query, engine_begin, hrun]
    | error e => simp [execute_sql_query, engine_begin, hrun]
  · intro st1 rows hrun
    simp [execute_sql_query, engine_begin, hrun]
  · intro e hrun
    simp [execute_sql_query, engine_begin, hrun]

/-- Claim C2, witness: a concrete failing statement — the state is
unchanged, the rollback happened, and the failure propagated. -/
theorem execute_sql_query_txn_scope_witness :
    (execute_sql_query (fun (_ : Nat) _ _ => Except.error ⟨"boom"⟩) 0
        "DROP TABLE t".toList [] [] Option.none).finalState = 0
    ∧ DbEvent.txnRollback ∈ (execute_sql_query (fun (_ : Nat) _ _ => Except.error ⟨"boom"⟩) 0
        "DROP TABLE t".toList [] [] Option.none).events
    ∧ (execute_sql_query (fun (_ : Nat) _ _ => Except.error ⟨"boom"⟩) 0
        "DROP TABLE t".toList [] [] Option.none).result = Except.error ⟨"boom"⟩ :=
  (execute_sql_query_txn_scope (fun (_ : Nat) _ _ => Except.error ⟨"boom"⟩) 0
    "DROP TABLE t".toList [] [] Option.none).2.2 ⟨"boom"⟩ rfl

/-- Claim C3: fetch-mode semantics of `execute_sql_query` on a
successfully executed statement with result set `rows`: fetch mode
`none` (Python `None`) returns nothing; fetch mode "one" returns the
first Row — or the absent indicator, without raising, when the result
set is empty; fetch mode "all" returns the ordered sequence of all rows,
the empty sequence when there are none. -/
theorem execute_sql_query_fetch_modes {σ : Type}
    (run : σ → List Char → List (String × String) → Except DbError (σ × List Row))
    (st : σ) (sqlText : List Char) (identifiers : List (List Char × List Char))
    (params : List (String × String)) (st1 : σ) (rows : List Row)
    (hrun : run st (resolveTemplate identifiers sqlText) params = Except.ok (st1, rows)) :
    (execute_sql_query run st sqlText identifiers params Option.none).result
        = Except.ok QueryResult.noResult
    ∧ (execute_sql_query run st sqlText identifiers params (some "one")).result
        = Except.ok (QueryResult.oneRow rows.head?)
    ∧ (rows = [] →
        (execute_sql_query run st sqlText identifiers params (some "one")).result
          = Except.ok (QueryResult.oneRow Option.none))
    ∧ (execute_sql_query run st sqlText identifiers params (some "all")).result
        = Except.ok (QueryResult.allRows rows)
    ∧ (rows = [] →
        (execute_sql_query run st sqlText identifiers params (some "all")).result
          = Except.ok (QueryResult.allRows [])) := by
  refine ⟨?_, ?_, fun hnil => ?_, ?_, fun hnil => ?_⟩
  · simp [execute_sql_query, engine_begin, hrun, pickFetch_none]
  · simp [execute_sql_query, engine_begin, hrun, pickFetch_one]
  · simp [execute_sql_query, engine_begin, hrun, pickFetch_one, hnil]
  · simp [execute_sql_query, engine_begin, hrun, pickFetch_all]
  · simp [execute_sql_query, engine_begin, hrun, pickFetch_all, hnil]

/-- Claim C3, witness: a concrete statement over an empty result set —
fetch "one" returns the absent indicator without raising. -/
theorem execute_sql_query_fetch_modes_witness :
    (execute_sql_query (fun (n : Nat) _ _ => Except.ok (n, ([] : List Row))) 0
        "SELECT 1".toList [] [] (some "one")).result
      = Except.ok (QueryResult.oneRow Option.none) :=
  (execute_sql_query_fetch_modes (fun (n : Nat) _ _ => Except.ok (n, ([] : List Row))) 0
    "SELECT 1".toList [] [] 0 [] rfl).2.2.1 rfl

/-- Claim C10: `execute_sql_query` does not validate its fetch argument.
For every fetch value other than exactly `some "one"` and `some "all"`
(including `some "none"`, `Option.none`, or any other string) the call
behaves identically to the no-fetch mode: the whole outcome coincides
with the `fetch=None` call, and on a successful statement the effects
are committed, the post-statement state is visible, and the returned
value is nothing. -/
theorem execute_sql_query_unvalidated_fetch {σ : Type}
    (run : σ → List Char → List (String × String) → Except DbError (σ × List Row))
    (st : σ) (sqlText : List Char) (identifiers : List (List Char × List Char))
    (params : List (String × String)) (fetch : Option String)
    (h1 : fetch ≠ some "one") (h2 : fetch ≠ some "all") :
    execute_sql_query run st sqlText identifiers params fetch
      = execute_sql_query run st sqlText identifiers params Option.none
    ∧ (∀ (st1 : σ) (rows : List Row),
        run st (resolveTemplate identifiers sqlText) params = Except.ok (st1, rows) →
        (execute_sql_query run st sqlText identifiers params fetch).result
            = Except.ok QueryResult.noResult
        ∧ (execute_sql_query run st sqlText identifiers params fetch).finalState = st1
        ∧ DbEvent.txnCommit ∈ (execute_sql_query run st sqlText identifiers params fetch).events) := by
  have hp : pickFetch fetch = pickFetch Option.none := by
    funext rows
    simp [pickFetch, beq_iff_eq, h1, h2]
  constructor
  · simp only [execute_sql_query, hp]
  · intro st1 rows hrun
    simp [execute_sql_query, engine_begin, hrun, hp, pickFetch_none]

/-- Claim C10, witness: the literal string "none" is not a recognized
fetch mode — the statement still executes and commits, and the call
returns nothing, exactly as with `fetch=None`. -/
theorem execute_sql_query_unvalidated_fetch_witness :
    execute_sql_query (fun (n : Nat) _ _ => Except.ok (n + 1, ([] : List Row))) 0
        "DELETE FROM t".toList [] [] (some "none")
      = execute_sql_query (fun (n : Nat) _ _ => Except.ok (n + 1, ([] : List Row))) 0
        "DELETE FROM t".toList [] [] Option.none
    ∧ (execute_sql_query (fun (n : Nat) _ _ => Except.ok (n + 1, ([] : List Row))) 0
        "DELETE FROM t".toList [] [] (some "none")).result
      = Except.ok QueryResult.noResult
    ∧ (execute_sql_query (fun (n : Nat) _ _ => Except.ok (n + 1, ([] : List Row))) 0
        "DELETE FROM t".toList [] [] (some "none")).finalState = 1
    ∧ DbEvent.txnCommit ∈ (execute_sql_query (fun (n : Nat) _ _ => Except.ok (n + 1, ([] : List Row))) 0
        "DELETE FROM t".toList [] [] (some "none")).events := by
  have h := execute_sql_query_unvalidated_fetch
    (fun (n : Nat) _ _ => Except.ok (n + 1, ([] : List Row))) 0
    "DELETE FROM t".toList [] [] (some "none") (by decide) (by decide)
  have h2 := h.2 1 [] rfl
  exact ⟨h.1, h2.1, h2.2.1, h2.2.2⟩

/-- Claim C4, counterexample: on a copy that fails partway, the
low-level session is neither rolled back nor closed within the call —
the event trace of a failing `copy_csv_to_postgres` call contains no
close of the connection or cursor (and no commit), because the source
has no `try`/`finally` around `conn`/`cursor` and the failure skips
straight past `conn.commit(); cursor.close(); conn.close()`. -/
theorem copy_csv_no_close_on_failure_cex :
    (copy_csv_to_postgres (fun (_ : Nat) _ _ _ => Except.error ⟨"bad row"⟩) true 0
        "orders.csv" "orders" [] "public").events.contains CopyEvent.connClose = false
    ∧ (copy_csv_to_postgres (fun (_ : Nat) _ _ _ => Except.error ⟨"bad row"⟩) true 0
        "orders.csv" "orders" [] "public").events.contains CopyEvent.cursorClose = false
    ∧ (copy_csv_to_postgres (fun (_ : Nat) _ _ _ => Except.error ⟨"bad row"⟩) true 0
        "orders.csv" "orders" [] "public").result
        = Except.error (CopyError.databaseError ⟨"bad row"⟩) := by
  refine ⟨by decide, by decide, rfl⟩

/-- Claim C4 (amended): each `copy_csv_to_postgres` call is one atomic
unit in the sense that commit is issued only after the entire copy
succeeds — if the copy fails partway, no commit ever happens, so no rows
from the file become visible and the raised failure propagates; on
success the staged rows are committed and the cursor and connection are
closed within the call.  However, on failure the session is neither
rolled back nor closed within the call: the connection is left open, to
be reclaimed only when the connection object is destroyed outside this
core. -/
theorem copy_csv_atomic_commit_scope {σ : Type}
    (copyExec : σ → String → String → String → Except DbError σ)
    (fileExists : Bool) (st : σ) (path tname : String)
    (cp : List (String × String)) (schema : String) :
    (∀ staged : σ, fileExists = true → copyExec st path schema tname = Except.ok staged →
        (copy_csv_to_postgres copyExec fileExists st path tname cp schema).visible = staged
        ∧ (copy_csv_to_postgres copyExec fileExists st path tname cp schema).result = Except.ok ()
        ∧ (copy_csv_to_postgres copyExec fileExists st path tname cp schema).events
            = [CopyEvent.connectOpen, CopyEvent.cursorOpen, CopyEvent.fileOpen,
               CopyEvent.copyRun, CopyEvent.fileClose, CopyEvent.connCommit,
               CopyEvent.cursorClose, CopyEvent.connClose])
    ∧ (∀ e : DbError, fileExists = true → copyExec st path schema tname = Except.error e →
        (copy_csv_to_postgres copyExec fileExists st path tname cp schema).visible = st
        ∧ CopyEvent.connCommit ∉ (copy_csv_to_postgres copyExec fileExists st path tname cp schema).events
        ∧ CopyEvent.connClose ∉ (copy_csv_to_postgres copyExec fileExists st path tname cp schema).events
        ∧ CopyEvent.cursorClose ∉ (copy_csv_to_postgres copyExec fileExists st path tname cp schema).events
        ∧ (copy_csv_to_postgres copyExec fileExists st path tname cp schema).result
            = Except.error (CopyError.databaseError e))
    ∧ (fileExists = false →
        (copy_csv_to_postgres copyExec fileExists st path tname cp schema).visible = st
        ∧ (copy_csv_to_postgres copyExec fileExists st path tname cp schema).result
            = Except.error CopyError.fileNotFound
        ∧ CopyEvent.copyRun ∉ (copy_csv_to_postgres copyExec fileExists st path tname cp schema).events) := by
  refine ⟨?_, ?_, ?_⟩
  · intro staged hfe hcopy
    subst hfe
    simp [copy_csv_to_postgres, hcopy]
  · intro e hfe hcopy
    subst hfe
    simp [copy_csv_to_postgres, hcopy]
  · intro hfe
    subst hfe
    simp [copy_csv_to_postgres]

/-- Claim C4 (amended), witness: a concrete failing copy — nothing from
the file is visible, and neither commit nor any close happened inside
the call. -/
theorem copy_csv_atomic_commit_scope_witness :
    (copy_csv_to_postgres (fun (_ : Nat) _ _ _ => Except.error ⟨"constraint"⟩) true 5
        "orders.csv" "orders" [] "public").visible = 5
    ∧ CopyEvent.connCommit ∉ (copy_csv_to_postgres (fun (_ : Nat) _ _ _ => Except.error ⟨"constraint"⟩) true 5
        "orders.csv" "orders" [] "public").events
    ∧ CopyEvent.connClose ∉ (copy_csv_to_postgres (fun (_ : Nat) _ _ _ => Except.error ⟨"constraint"⟩) true 5
        "orders.csv" "orders" [] "public").events
    ∧ CopyEvent.cursorClose ∉ (copy_csv_to_postgres (fun (_ : Nat) _ _ _ => Except.error ⟨"constraint"⟩) true 5
        "orders.csv" "orders" [] "public").events
    ∧ (copy_csv_to_postgres (fun (_ : Nat) _ _ _ => Except.error ⟨"constraint"⟩) true 5
        "orders.csv" "orders" [] "public").result
        = Except.error (CopyError.databaseError ⟨"constraint"⟩) :=
  (copy_csv_atomic_commit_scope (fun (_ : Nat) _ _ _ => Except.error ⟨"constraint"⟩) true 5
    "orders.csv" "orders" [] "public").2.1 ⟨"constraint"⟩ rfl rfl

/-- Claim C5: `fetch_table` checks existence through the Schema
Inspector strictly before issuing the projection query.  When the table
does not exist it raises the not-found `ValueError` having sent no scan
query at all; when it exists, exactly the one projection query is sent
and the full table is returned. -/
theorem fetch_table_not_found_before_scan (catalog : Catalog) (tableName schema : String) :
    (table_exists catalog tableName schema = false →
        (fetch_table catalog tableName schema).1
            = Except.error ("Table '" ++ schema ++ "." ++ tableName ++ "' does not exist.")
        ∧ (fetch_table catalog tableName schema).2 = [])
    ∧ (table_exists catalog tableName schema = true →
        (fetch_table catalog tableName schema).1
            = Except.ok (read_sql_all catalog schema tableName)
        ∧ (fetch_table catalog tableName schema).2
            = ["SELECT * FROM \"" ++ schema ++ "\".\"" ++ tableName ++ "\""]) := by
  constructor
  · intro h
    simp [fetch_table, h]
  · intro h
    simp [fetch_table, h]

/-- Claim C5, witness: fetching a never-created table from an empty
catalog raises the not-found error with no scan query issued. -/
theorem fetch_table_not_found_before_scan_witness :
    table_exists [] "users" "public" = false
    ∧ (fetch_table [] "users" "public").1
        = Except.error ("Table '" ++ "public" ++ "." ++ "users" ++ "' does not exist.")
    ∧ (fetch_table [] "users" "public").2 = [] := by
  have h : table_exists [] "users" "public" = false := by decide
  have h2 := (fetch_table_not_found_before_scan [] "users" "public").1 h
  exact ⟨h, h2.1, h2.2⟩

/-- Claim C8: the schema component defaults to "public" uniformly: for
each of `table_exists`, `copy_csv_to_postgres`, `fetch_table` and
`bulk_insert_dataframe`, a call without an explicit schema equals the
call with schema "public". -/
theorem default_schema_public :
    (∀ (catalog : Catalog) (t : String),
        table_exists catalog t = table_exists catalog t "public")
    ∧ (∀ (σ : Type) (copyExec : σ → String → String → String → Except DbError σ)
        (fe : Bool) (st : σ) (path tname : String) (cp : List (String × String)),
        copy_csv_to_postgres copyExec fe st path tname cp
          = copy_csv_to_postgres copyExec fe st path tname cp "public")
    ∧ (∀ (catalog : Catalog) (t : String),
        fetch_table catalog t = fetch_table catalog t "public")
    ∧ (∀ (df : DataFrame) (catalog : Catalog) (t : String),
        bulk_insert_dataframe df catalog t
          = bulk_insert_dataframe df catalog t "public" "append") :=
  ⟨fun _ _ => rfl, fun _ _ _ _ _ _ _ => rfl, fun _ _ => rfl, fun _ _ _ => rfl⟩

/-- Claim C6: `bulk_insert_dataframe` mode semantics.
Mode "append" inserts the frame's rows after the existing rows without
altering them (conjunct 1); run twice on a fresh target it creates the
table with the frame's N rows and then doubles them to 2N (conjunct 2);
mode "replace" drops and recreates the target, so run twice the table
holds exactly the frame's N rows (conjunct 3); mode "fail" raises
whenever the target table already exists (conjunct 4); and in every
mode the frame's index/row-label column is never written — the outcome
is independent of the frame's index name and row labels (conjunct 5),
and the created tables' columns are exactly the frame's data columns
(conjuncts 2 and 3). -/
theorem bulk_insert_modes :
    (∀ (df : DataFrame) (catalog : Catalog) (t s : String) (T : Table),
        findTable catalog s t = some T →
        bulk_insert_dataframe df catalog t s "append"
          = Except.ok (setTable catalog s t ⟨T.cols, T.rows ++ df.rows⟩))
    ∧ (∀ (df : DataFrame) (t s : String),
        bulk_insert_dataframe df [] t s "append"
            = Except.ok [((s, t), ⟨df.cols, df.rows⟩)]
        ∧ bulk_insert_dataframe df [((s, t), ⟨df.cols, df.rows⟩)] t s "append"
            = Except.ok [((s, t), ⟨df.cols, df.rows ++ df.rows⟩)]
        ∧ (df.rows ++ df.rows).length = 2 * df.rows.length)
    ∧ (∀ (df : DataFrame) (t s : String),
        bulk_insert_dataframe df [] t s "replace"
            = Except.ok [((s, t), ⟨df.cols, df.rows⟩)]
        ∧ bulk_insert_dataframe df [((s, t), ⟨df.cols, df.rows⟩)] t s "replace"
            = Except.ok [((s, t), ⟨df.cols, df.rows⟩)])
    ∧ (∀ (df : DataFrame) (catalog : Catalog) (t s : String),
        table_exists catalog t s = true →
        bulk_insert_dataframe df catalog t s "fail" = Except.error ToSqlErr.tableAlreadyExists)
    ∧ (∀ (df : DataFrame) (catalog : Catalog) (t s m ic : String) (idx : List String),
        bulk_insert_dataframe ⟨df.cols, ic, idx, df.rows⟩ catalog t s m
          = bulk_insert_dataframe df catalog t s m) := by
  refine ⟨?_, ?_, ?_, ?_, ?_⟩
  · intro df catalog t s T h
    simp [bulk_insert_dataframe, to_sql, h]
  · intro df t s
    refine ⟨?_, ?_, ?_⟩
    · simp [bulk_insert_dataframe, to_sql, findTable, setTable]
    · simp [bulk_insert_dataframe, to_sql, findTable, setTable, List.find?]
    · simp [List.length_append, two_mul]
  · intro df t s
    refine ⟨?_, ?_⟩
    · simp [bulk_insert_dataframe, to_sql, findTable, setTable]
    · simp [bulk_insert_dataframe, to_sql, findTable, setTable, List.find?]
  · intro df catalog t s h
    rw [table_exists, Option.isSome_iff_exists] at h
    obtain ⟨T, hT⟩ := h
    simp [bulk_insert_dataframe, to_sql, hT]
  · intro df catalog t s m ic idx
    rfl

/-- Claim C6, witness: appending a concrete one-row frame to a concrete
existing one-row table keeps the existing row and adds the new one. -/
theorem bulk_insert_modes_witness :
    findTable [(("public", "books"), ⟨["title"], [["dune"]]⟩)] "public" "books"
        = some ⟨["title"], [["dune"]]⟩
    ∧ bulk_insert_dataframe ⟨["title"], "idx", ["0"], [["hyperion"]]⟩
        [(("public", "books"), ⟨["title"], [["dune"]]⟩)] "books" "public" "append"
      = Except.ok (setTable [(("public", "books"), ⟨["title"], [["dune"]]⟩)]
          "public" "books" ⟨["title"], [["dune"], ["hyperion"]]⟩) := by
  have h : findTable [(("public", "books"), ⟨["title"], [["dune"]]⟩)] "public" "books"
      = some ⟨["title"], [["dune"]]⟩ := by decide
  exact ⟨h, bulk_insert_modes.1 ⟨["title"], "idx", ["0"], [["hyperion"]]⟩
    [(("public", "books"), ⟨["title"], [["dune"]]⟩)] "books" "public"
    ⟨["title"], [["dune"]]⟩ h⟩

/-- Claim C9: the plotting collaborators fail fast on invalid input.
`create_line_plot` raises the validation error, with no plotting side
effect, when the designated x or y column is absent; `rolling_sum_plot`
does so when the date column is absent, and when any requested value
column is absent; `plot_waterfall` raises the mismatched-length
validation error, before any side effect occurs, whenever the step
labels and step values differ in length. -/
theorem plot_validation_fail_fast :
    (∀ (dfCols : List String) (x_col y_col : String),
        dfCols.contains x_col = false ∨ dfCols.contains y_col = false →
        create_line_plot dfCols x_col y_col
          = (Except.error "Specified columns not found in DataFrame", []))
    ∧ (∀ (dfCols : List String) (date_col : String) (value_cols : List String),
        dfCols.contains date_col = false →
        rolling_sum_plot dfCols date_col value_cols
          = (Except.error (date_col ++ " not found in DataFrame"), []))
    ∧ (∀ (dfCols : List String) (date_col : String) (value_cols : List String) (c : String),
        dfCols.contains date_col = true → c ∈ value_cols → dfCols.contains c = false →
        rolling_sum_plot dfCols date_col value_cols
          = (Except.error "Columns not found", []))
    ∧ (∀ (start_value : Int) (step_labels : List String) (step_values : List Int)
        (step_colors : List String),
        step_labels.length ≠ step_values.length →
        plot_waterfall start_value step_labels step_values step_colors
          = (Except.error "step_labels and step_values must have same length", [])) := by
  refine ⟨?_, ?_, ?_, ?_⟩
  · intro dfCols x_col y_col h
    rcases h with h | h
    · have h' : x_col ∉ dfCols := by simpa using h
      simp [create_line_plot, h']
    · have h' : y_col ∉ dfCols := by simpa using h
      simp [create_line_plot, h']
  · intro dfCols date_col value_cols h
    have h' : date_col ∉ dfCols := by simpa using h
    simp [rolling_sum_plot, h']
  · intro dfCols date_col value_cols c hdate hc hmiss
    have hdate' : date_col ∈ dfCols := by simpa using hdate
    have hex : ∃ x ∈ value_cols, x ∉ dfCols := ⟨c, hc, by simpa using hmiss⟩
    simp [rolling_sum_plot, hdate', hex]
  · intro start_value step_labels step_values step_colors h
    simp [plot_waterfall, h]

/-- Claim C9, witness: concrete invalid inputs for each collaborator —
missing y column, missing date column, missing value column, and
mismatched waterfall label/value lengths — each failing with the
validation error and an empty side-effect trace. -/
theorem plot_validation_fail_fast_witness :
    (List.contains ["date", "amount"] "total" = false
      ∧ create_line_plot ["date", "amount"] "date" "total"
          = (Except.error "Specified columns not found in DataFrame", []))
    ∧ (List.contains ["amount"] "date" = false
      ∧ rolling_sum_plot ["amount"] "date" ["amount"]
          = (Except.error ("date" ++ " not found in DataFrame"), []))
    ∧ (rolling_sum_plot ["date", "amount"] "date" ["amount", "total"]
          = (Except.error "Columns not found", []))
    ∧ ((["a", "b"] : List String).length ≠ ([(3 : Int)]).length
      ∧ plot_waterfall 0 ["a", "b"] [(3 : Int)] []
          = (Except.error "step_labels and step_values must have same length", [])) := by
  refine ⟨⟨by decide, ?_⟩, ⟨by decide, ?_⟩, ?_, ⟨by decide, ?_⟩⟩
  · exact plot_validation_fail_fast.1 ["date", "amount"] "date" "total" (Or.inr (by decide))
  · exact plot_validation_fail_fast.2.1 ["amount"] "date" ["amount"] (by decide)
  · exact plot_validation_fail_fast.2.2.1 ["date", "amount"] "date" ["amount", "total"] "total"
      (by decide) (by decide) (by decide)
  · exact plot_validation_fail_fast.2.2.2 0 ["a", "b"] [(3 : Int)] [] (by decide)
